import Mathlib

/-!
Verification of the dASTardly external scanner
(`packages/tree-sitter-csv/src/scanner.c`).

The scanner augments tree-sitter grammars for comma-, pipe-, and
tab-separated value formats with zero-width empty-field detection.  We give
a shallow embedding of the C code: the lexer cursor becomes an explicit
state record, the `valid_symbols` array becomes a Boolean-valued function on
the token-type enum, and every scanner entry point becomes a pure Lean
function returning its Boolean verdict together with the updated cursor.
-/

namespace Dastardly

/-- The `TokenType` enum of `scanner.c`: the scanner only knows the
zero-width empty-field token and the parser's error-recovery sentinel. -/
inductive TokenType where
  | EMPTY_FIELD
  | ERROR_SENTINEL
deriving DecidableEq, Repr

/-- Shallow embedding of the `TSLexer` cursor as seen by the scanner:
the document content, the current position, the committed token-end mark
(`mark_end`), and the emitted `result_symbol`.  The scanner only observes
`lookahead`, calls `mark_end`, and writes `result_symbol`; it never owns or
frees the cursor. -/
structure TSLexer where
  input : List Char
  pos : Nat
  markedEnd : Option Nat
  result_symbol : Option TokenType
deriving DecidableEq, Repr

/-- The single look-ahead code point.  tree-sitter exposes it as an
`int32_t` that holds the code point of the character at the cursor, and `0`
at end of input; we model it as the corresponding `Nat`. -/
def TSLexer.lookahead (l : TSLexer) : Nat :=
  match l.input.get? l.pos with
  | some c => c.toNat
  | none => 0

/-- `lexer->mark_end(lexer)`: commit the current position as the end of the
token under construction. -/
def TSLexer.mark_end (l : TSLexer) : TSLexer :=
  { l with markedEnd := some l.pos }

/-- `lexer->advance(lexer, ...)`: consume one code point.  Present in the
cursor interface; the scanner never calls it. -/
def TSLexer.advance (l : TSLexer) : TSLexer :=
  { l with pos := l.pos + 1 }

@[simp] theorem TSLexer.mark_end_input (l : TSLexer) :
    l.mark_end.input = l.input := rfl

@[simp] theorem TSLexer.mark_end_pos (l : TSLexer) :
    l.mark_end.pos = l.pos := rfl

@[simp] theorem TSLexer.mark_end_markedEnd (l : TSLexer) :
    l.mark_end.markedEnd = some l.pos := rfl

@[simp] theorem TSLexer.mark_end_result_symbol (l : TSLexer) :
    l.mark_end.result_symbol = l.result_symbol := rfl

@[simp] theorem TSLexer.mark_end_lookahead (l : TSLexer) :
    l.mark_end.lookahead = l.lookahead := rfl

/-- `is_separator` from `scanner.c`: comma, horizontal tab, or vertical
bar, for all three dialects. -/
def is_separator (c : Nat) : Bool :=
  c == ','.toNat || c == '\t'.toNat || c == '|'.toNat

/-- `is_newline` from `scanner.c`: line feed or carriage return. -/
def is_newline (c : Nat) : Bool :=
  c == '\n'.toNat || c == '\r'.toNat

/-- `tree_sitter_csv_external_scanner_create`: the scanner is stateless, so
creation returns the null handle. -/
def tree_sitter_csv_external_scanner_create : Option Unit :=
  none

/-- `tree_sitter_csv_external_scanner_destroy`: no-op. -/
def tree_sitter_csv_external_scanner_destroy (payload : Option Unit) : Unit :=
  ()

/-- `tree_sitter_csv_external_scanner_serialize`: reports length `0` and
writes no bytes into the buffer (first component: returned length; second
component: the bytes written). -/
def tree_sitter_csv_external_scanner_serialize (payload : Option Unit) :
    Nat × List Char :=
  (0, [])

/-- `tree_sitter_csv_external_scanner_deserialize`: ignores the buffer and
leaves the handle state unchanged. -/
def tree_sitter_csv_external_scanner_deserialize (payload : Option Unit)
    (buffer : List Char) (length : Nat) : Option Unit :=
  payload

/-- `tree_sitter_csv_external_scanner_scan`: decline during error recovery,
decline when `EMPTY_FIELD` is not grammatically valid, otherwise mark the
token end at the current position and emit `EMPTY_FIELD` exactly when the
look-ahead is a separator or a newline.  Returns the verdict paired with
the cursor after the call. -/
def tree_sitter_csv_external_scanner_scan (payload : Option Unit)
    (lexer : TSLexer) (valid_symbols : TokenType → Bool) : Bool × TSLexer :=
  if valid_symbols TokenType.ERROR_SENTINEL then
    (false, lexer)
  else if !valid_symbols TokenType.EMPTY_FIELD then
    (false, lexer)
  else
    let lexer := lexer.mark_end
    if is_separator lexer.lookahead then
      (true, { lexer with result_symbol := some TokenType.EMPTY_FIELD })
    else if is_newline lexer.lookahead then
      (true, { lexer with result_symbol := some TokenType.EMPTY_FIELD })
    else
      (false, lexer)

/-- `tree_sitter_psv_external_scanner_create`: delegates to the csv one. -/
def tree_sitter_psv_external_scanner_create : Option Unit :=
  tree_sitter_csv_external_scanner_create

/-- `tree_sitter_tsv_external_scanner_create`: delegates to the csv one. -/
def tree_sitter_tsv_external_scanner_create : Option Unit :=
  tree_sitter_csv_external_scanner_create

/-- `tree_sitter_psv_external_scanner_destroy`: delegates to the csv one. -/
def tree_sitter_psv_external_scanner_destroy (payload : Option Unit) : Unit :=
  tree_sitter_csv_external_scanner_destroy payload

/-- `tree_sitter_tsv_external_scanner_destroy`: delegates to the csv one. -/
def tree_sitter_tsv_external_scanner_destroy (payload : Option Unit) : Unit :=
  tree_sitter_csv_external_scanner_destroy payload

/-- `tree_sitter_psv_external_scanner_serialize`: delegates to the csv one. -/
def tree_sitter_psv_external_scanner_serialize (payload : Option Unit) :
    Nat × List Char :=
  tree_sitter_csv_external_scanner_serialize payload

/-- `tree_sitter_tsv_external_scanner_serialize`: delegates to the csv one. -/
def tree_sitter_tsv_external_scanner_serialize (payload : Option Unit) :
    Nat × List Char :=
  tree_sitter_csv_external_scanner_serialize payload

/-- `tree_sitter_psv_external_scanner_deserialize`: delegates to the csv one. -/
def tree_sitter_psv_external_scanner_deserialize (payload : Option Unit)
    (buffer : List Char) (length : Nat) : Option Unit :=
  tree_sitter_csv_external_scanner_deserialize payload buffer length

/-- `tree_sitter_tsv_external_scanner_deserialize`: delegates to the csv one. -/
def tree_sitter_tsv_external_scanner_deserialize (payload : Option Unit)
    (buffer : List Char) (length : Nat) : Option Unit :=
  tree_sitter_csv_external_scanner_deserialize payload buffer length

/-- `tree_sitter_psv_external_scanner_scan`: delegates to the csv one. -/
def tree_sitter_psv_external_scanner_scan (payload : Option Unit)
    (lexer : TSLexer) (valid_symbols : TokenType → Bool) : Bool × TSLexer :=
  tree_sitter_csv_external_scanner_scan payload lexer valid_symbols

/-- `tree_sitter_tsv_external_scanner_scan`: delegates to the csv one. -/
def tree_sitter_tsv_external_scanner_scan (payload : Option Unit)
    (lexer : TSLexer) (valid_symbols : TokenType → Bool) : Bool × TSLexer :=
  tree_sitter_csv_external_scanner_scan payload lexer valid_symbols

/-- Valid-symbol set in which only `EMPTY_FIELD` is legal: the normal
situation in which the parser consults the scanner. -/
def onlyEmptyField : TokenType → Bool :=
  fun t => match t with
  | TokenType.EMPTY_FIELD => true
  | TokenType.ERROR_SENTINEL => false

/-- Valid-symbol set used during error recovery: every token type is
valid, in particular the error sentinel. -/
def allSymbols : TokenType → Bool :=
  fun _ => true

theorem comma_toNat : ','.toNat = 44 := rfl

theorem tab_toNat : '\t'.toNat = 9 := rfl

theorem pipe_toNat : '|'.toNat = 124 := rfl

theorem lf_toNat : '\n'.toNat = 10 := rfl

theorem cr_toNat : '\r'.toNat = 13 := rfl

/-- Canonical-form lemma for `scan`: the four paths of the C function,
with the cursor after the call written out. -/
theorem scan_spec (p : Option Unit) (l : TSLexer) (v : TokenType → Bool) :
    tree_sitter_csv_external_scanner_scan p l v =
      if v TokenType.ERROR_SENTINEL = true then (false, l)
      else if v TokenType.EMPTY_FIELD = false then (false, l)
      else if (is_separator l.lookahead || is_newline l.lookahead) = true then
        (true, { l.mark_end with result_symbol := some TokenType.EMPTY_FIELD })
      else (false, l.mark_end) := by
  unfold tree_sitter_csv_external_scanner_scan
  cases hE : v TokenType.ERROR_SENTINEL <;>
    cases hF : v TokenType.EMPTY_FIELD <;>
      cases hs : is_separator l.lookahead <;>
        cases hn : is_newline l.lookahead <;>
          simp [hs, hn]

/-- At end of input the look-ahead code point is `0`. -/
theorem lookahead_eof (l : TSLexer) (h : l.input.get? l.pos = none) :
    l.lookahead = 0 := by
  unfold TSLexer.lookahead
  rw [h]

/-- Shared helper: with `EMPTY_FIELD` valid, `ERROR_SENTINEL` invalid and
the look-ahead at end of input, `scan` returns `false`. -/
theorem scan_fst_false_of_eof (p : Option Unit) (l : TSLexer)
    (v : TokenType → Bool) (hF : v TokenType.EMPTY_FIELD = true)
    (hE : v TokenType.ERROR_SENTINEL = false)
    (heof : l.input.get? l.pos = none) :
    (tree_sitter_csv_external_scanner_scan p l v).1 = false := by
  rw [scan_spec, lookahead_eof l heof]
  simp [hE, hF, is_separator, is_newline]

/-- C1: for every valid-symbol set and every cursor, `scan` succeeds and
emits an `EMPTY_FIELD` token if and only if `ERROR_SENTINEL` is not valid,
`EMPTY_FIELD` is valid, and the single look-ahead code point is a separator
or a newline; in every other case (end-of-input look-ahead has code point
`0`, which is neither) `scan` returns no token. -/
theorem csv_scan_emits_empty_field_iff (p : Option Unit) (l : TSLexer)
    (v : TokenType → Bool) :
    ((tree_sitter_csv_external_scanner_scan p l v).1 = true ↔
      (v TokenType.ERROR_SENTINEL = false ∧ v TokenType.EMPTY_FIELD = true ∧
        (is_separator l.lookahead = true ∨ is_newline l.lookahead = true))) ∧
    ((tree_sitter_csv_external_scanner_scan p l v).1 = true →
      (tree_sitter_csv_external_scanner_scan p l v).2.result_symbol =
        some TokenType.EMPTY_FIELD) := by
  rw [scan_spec]
  cases hE : v TokenType.ERROR_SENTINEL <;>
    cases hF : v TokenType.EMPTY_FIELD <;>
      cases hs : is_separator l.lookahead <;>
        cases hn : is_newline l.lookahead <;>
          simp [hs, hn]

theorem csv_scan_emits_empty_field_iff_witness :
    (tree_sitter_csv_external_scanner_scan none
      ⟨['a', ','], 1, none, none⟩ onlyEmptyField).1 = true :=
  (csv_scan_emits_empty_field_iff none
      ⟨['a', ','], 1, none, none⟩ onlyEmptyField).1.mpr
    ⟨by decide, by decide, Or.inl (by decide)⟩

/-- C2: whenever `ERROR_SENTINEL` is a member of the valid-symbol set,
`scan` returns no token, regardless of the cursor and look-ahead content
(and the cursor is left untouched). -/
theorem csv_scan_error_sentinel_declines (p : Option Unit) (l : TSLexer)
    (v : TokenType → Bool) (h : v TokenType.ERROR_SENTINEL = true) :
    tree_sitter_csv_external_scanner_scan p l v = (false, l) := by
  rw [scan_spec]
  simp [h]

theorem csv_scan_error_sentinel_declines_witness :
    tree_sitter_csv_external_scanner_scan none
      ⟨['a', ','], 1, none, none⟩ allSymbols =
      (false, ⟨['a', ','], 1, none, none⟩) :=
  csv_scan_error_sentinel_declines none ⟨['a', ','], 1, none, none⟩
    allSymbols rfl

/-- C3: with `EMPTY_FIELD` valid and `ERROR_SENTINEL` not valid, if the
look-ahead is end of input (no further code point), `scan` produces no
token: end of input alone is excluded from the trigger set. -/
theorem csv_scan_eof_declines (p : Option Unit) (l : TSLexer)
    (v : TokenType → Bool) (hF : v TokenType.EMPTY_FIELD = true)
    (hE : v TokenType.ERROR_SENTINEL = false)
    (heof : l.input.get? l.pos = none) :
    (tree_sitter_csv_external_scanner_scan p l v).1 = false :=
  scan_fst_false_of_eof p l v hF hE heof

theorem csv_scan_eof_declines_witness :
    (tree_sitter_csv_external_scanner_scan none
      ⟨['a', ','], 2, none, none⟩ onlyEmptyField).1 = false :=
  csv_scan_eof_declines none ⟨['a', ','], 2, none, none⟩ onlyEmptyField
    (by decide) (by decide) (by decide)

/-- C4, counterexample: for the input `a,b,` at the boundary after the
trailing comma (position 4, look-ahead is end of input), with
`EMPTY_FIELD` valid and `ERROR_SENTINEL` not valid, `scan` returns `false`
and emits nothing — contrary to the claim that it emits `EMPTY_FIELD`
there. -/
theorem csv_scan_trailing_comma_eof_no_token :
    (tree_sitter_csv_external_scanner_scan none
      ⟨['a', ',', 'b', ','], 4, none, none⟩ onlyEmptyField).1 = false ∧
    (tree_sitter_csv_external_scanner_scan none
      ⟨['a', ',', 'b', ','], 4, none, none⟩ onlyEmptyField).2.result_symbol
      = none := by
  decide

/-- C4, amended: for input `a,b,` at the boundary after the trailing comma
where the look-ahead is end of input, with `EMPTY_FIELD` valid and
`ERROR_SENTINEL` not valid, `scan` produces no token: the scanner never
synthesizes an empty-field token on end-of-input look-ahead, so any empty
trailing field must be recognized by the structural grammar, not by this
scanner. -/
theorem csv_scan_trailing_comma_eof_declines (p : Option Unit) (l : TSLexer)
    (v : TokenType → Bool) (hinput : l.input = ['a', ',', 'b', ','])
    (hpos : l.pos = 4) (hF : v TokenType.EMPTY_FIELD = true)
    (hE : v TokenType.ERROR_SENTINEL = false) :
    (tree_sitter_csv_external_scanner_scan p l v).1 = false := by
  apply scan_fst_false_of_eof p l v hF hE
  rw [hinput, hpos]
  decide

theorem csv_scan_trailing_comma_eof_declines_witness :
    (tree_sitter_csv_external_scanner_scan none
      ⟨['a', ',', 'b', ','], 4, none, some TokenType.EMPTY_FIELD⟩
      onlyEmptyField).1 = false :=
  csv_scan_trailing_comma_eof_declines none
    ⟨['a', ',', 'b', ','], 4, none, some TokenType.EMPTY_FIELD⟩
    onlyEmptyField rfl rfl (by decide) (by decide)

/-- C5: `scan` never moves the cursor position and never changes the
input, so no input is consumed whether it succeeds or fails; and whenever
it produces a token, the committed token end is the entry position, so the
token is zero-width. -/
theorem csv_scan_zero_width_no_consume (p : Option Unit) (l : TSLexer)
    (v : TokenType → Bool) :
    (tree_sitter_csv_external_scanner_scan p l v).2.pos = l.pos ∧
    (tree_sitter_csv_external_scanner_scan p l v).2.input = l.input ∧
    ((tree_sitter_csv_external_scanner_scan p l v).1 = true →
      (tree_sitter_csv_external_scanner_scan p l v).2.markedEnd =
        some l.pos) := by
  rw [scan_spec]
  cases hE : v TokenType.ERROR_SENTINEL <;>
    cases hF : v TokenType.EMPTY_FIELD <;>
      cases hsn : (is_separator l.lookahead || is_newline l.lookahead) <;>
        simp [hsn, TSLexer.mark_end]

theorem csv_scan_zero_width_no_consume_witness :
    (tree_sitter_csv_external_scanner_scan none
      ⟨[',', ','], 1, none, none⟩ onlyEmptyField).2.pos = 1 ∧
    (tree_sitter_csv_external_scanner_scan none
      ⟨[',', ','], 1, none, none⟩ onlyEmptyField).2.markedEnd = some 1 := by
  refine ⟨(csv_scan_zero_width_no_consume none
    ⟨[',', ','], 1, none, none⟩ onlyEmptyField).1, ?_⟩
  exact (csv_scan_zero_width_no_consume none
    ⟨[',', ','], 1, none, none⟩ onlyEmptyField).2.2 (by decide)

/-- C6: for every code point `c`, `is_separator c` holds exactly when `c`
is comma (44), horizontal tab (9), or vertical bar (124), and
`is_newline c` holds exactly when `c` is line feed (10) or carriage return
(13).  Both predicates are total Boolean functions, and there is a single
pair of predicates shared by all three dialects. -/
theorem is_separator_is_newline_charsets (c : Nat) :
    (is_separator c = true ↔ (c = 44 ∨ c = 9 ∨ c = 124)) ∧
    (is_newline c = true ↔ (c = 10 ∨ c = 13)) := by
  constructor <;>
    simp [is_separator, is_newline, comma_toNat, tab_toNat, pipe_toNat,
      lf_toNat, cr_toNat, or_assoc]

theorem is_separator_is_newline_charsets_witness :
    is_separator 124 = true ∧ is_newline 13 = true :=
  ⟨(is_separator_is_newline_charsets 124).1.mpr (Or.inr (Or.inr rfl)),
    (is_separator_is_newline_charsets 13).2.mpr (Or.inr rfl)⟩

/-- C7: `scan` is deterministic and its verdict is a function of the
look-ahead code point and the valid-symbol set alone: two invocations at
cursors with the same look-ahead, with the same valid-symbol set, return
the same verdict, and on success both emit the `EMPTY_FIELD` token kind. -/
theorem csv_scan_deterministic (p₁ p₂ : Option Unit) (l₁ l₂ : TSLexer)
    (v : TokenType → Bool) (h : l₁.lookahead = l₂.lookahead) :
    (tree_sitter_csv_external_scanner_scan p₁ l₁ v).1 =
      (tree_sitter_csv_external_scanner_scan p₂ l₂ v).1 ∧
    ((tree_sitter_csv_external_scanner_scan p₁ l₁ v).1 = true →
      (tree_sitter_csv_external_scanner_scan p₁ l₁ v).2.result_symbol =
        (tree_sitter_csv_external_scanner_scan p₂ l₂ v).2.result_symbol) := by
  rw [scan_spec, scan_spec, h]
  cases hE : v TokenType.ERROR_SENTINEL <;>
    cases hF : v TokenType.EMPTY_FIELD <;>
      cases hsn : (is_separator l₂.lookahead || is_newline l₂.lookahead) <;>
        simp [hsn]

theorem csv_scan_deterministic_witness :
    (tree_sitter_csv_external_scanner_scan none
      ⟨['a', ',', 'b'], 1, none, none⟩ onlyEmptyField).1 =
      (tree_sitter_csv_external_scanner_scan none
        ⟨[','], 0, some 7, some TokenType.ERROR_SENTINEL⟩
        onlyEmptyField).1 :=
  (csv_scan_deterministic none none ⟨['a', ',', 'b'], 1, none, none⟩
    ⟨[','], 0, some 7, some TokenType.ERROR_SENTINEL⟩ onlyEmptyField
    (by decide)).1

/-- C8: the pipe-dialect and tab-dialect entry points are extensionally
equal to the comma-dialect implementation for all five operations: scan,
create, destroy, serialize, deserialize. -/
theorem dialect_entry_points_delegate (p : Option Unit) (l : TSLexer)
    (v : TokenType → Bool) (buffer : List Char) (len : Nat) :
    tree_sitter_psv_external_scanner_scan p l v =
      tree_sitter_csv_external_scanner_scan p l v ∧
    tree_sitter_tsv_external_scanner_scan p l v =
      tree_sitter_csv_external_scanner_scan p l v ∧
    tree_sitter_psv_external_scanner_create =
      tree_sitter_csv_external_scanner_create ∧
    tree_sitter_tsv_external_scanner_create =
      tree_sitter_csv_external_scanner_create ∧
    tree_sitter_psv_external_scanner_destroy p =
      tree_sitter_csv_external_scanner_destroy p ∧
    tree_sitter_tsv_external_scanner_destroy p =
      tree_sitter_csv_external_scanner_destroy p ∧
    tree_sitter_psv_external_scanner_serialize p =
      tree_sitter_csv_external_scanner_serialize p ∧
    tree_sitter_tsv_external_scanner_serialize p =
      tree_sitter_csv_external_scanner_serialize p ∧
    tree_sitter_psv_external_scanner_deserialize p buffer len =
      tree_sitter_csv_external_scanner_deserialize p buffer len ∧
    tree_sitter_tsv_external_scanner_deserialize p buffer len =
      tree_sitter_csv_external_scanner_deserialize p buffer len :=
  ⟨rfl, rfl, rfl, rfl, rfl, rfl, rfl, rfl, rfl, rfl⟩

/-- C9: `serialize` always reports length zero and writes zero bytes;
`deserialize` of any buffer of any length leaves the handle state
unchanged; hence a serialize/deserialize round trip restores the state. -/
theorem serialize_zero_deserialize_roundtrip (p : Option Unit)
    (buffer : List Char) (len : Nat) :
    (tree_sitter_csv_external_scanner_serialize p).1 = 0 ∧
    (tree_sitter_csv_external_scanner_serialize p).2 = [] ∧
    tree_sitter_csv_external_scanner_deserialize p buffer len = p ∧
    tree_sitter_csv_external_scanner_deserialize p
      (tree_sitter_csv_external_scanner_serialize p).2
      (tree_sitter_csv_external_scanner_serialize p).1 = p :=
  ⟨rfl, rfl, rfl, rfl⟩

/-- C10: on every call with `ERROR_SENTINEL` not valid and `EMPTY_FIELD`
valid, `scan` sets the cursor's token-end mark to the current position —
also when it then returns `false`; and the two valid-symbol checks are the
only declining paths that leave the cursor completely untouched. -/
theorem csv_scan_mark_end_side_effect (p : Option Unit) (l : TSLexer)
    (v : TokenType → Bool) :
    (v TokenType.ERROR_SENTINEL = false → v TokenType.EMPTY_FIELD = true →
      (tree_sitter_csv_external_scanner_scan p l v).2.markedEnd =
        some l.pos) ∧
    (v TokenType.ERROR_SENTINEL = true →
      (tree_sitter_csv_external_scanner_scan p l v).2 = l) ∧
    (v TokenType.ERROR_SENTINEL = false → v TokenType.EMPTY_FIELD = false →
      (tree_sitter_csv_external_scanner_scan p l v).2 = l) := by
  rw [scan_spec]
  cases hE : v TokenType.ERROR_SENTINEL <;>
    cases hF : v TokenType.EMPTY_FIELD <;>
      cases hsn : (is_separator l.lookahead || is_newline l.lookahead) <;>
        simp [hsn, TSLexer.mark_end]

theorem csv_scan_mark_end_side_effect_witness :
    (tree_sitter_csv_external_scanner_scan none
      ⟨['a', 'b'], 1, none, none⟩ onlyEmptyField).2.markedEnd = some 1 ∧
    (tree_sitter_csv_external_scanner_scan none
      ⟨['a', 'b'], 1, none, none⟩ allSymbols).2 = ⟨['a', 'b'], 1, none, none⟩ :=
  ⟨(csv_scan_mark_end_side_effect none ⟨['a', 'b'], 1, none, none⟩
      onlyEmptyField).1 rfl rfl,
    (csv_scan_mark_end_side_effect none ⟨['a', 'b'], 1, none, none⟩
      allSymbols).2.1 rfl⟩

end Dastardly
